import Mathlib

/-!
Verification development for the California Revealed Project Dublin Core
metadata generator (a single Python 2 script, crp.py).  The Python code is
shallowly embedded: string manipulation is translated to executable Lean
functions over character lists, the filesystem and the external exiftool
process are passed in as oracle functions, Python dictionaries become
insertion-ordered association lists, and code that can raise an uncaught
exception is modelled with Option (none = the run aborts).  Machine floats
only appear in the size computation, which is modelled exactly over integers
(hundredths of a megabyte); the byte sizes of interest are dyadic rationals
that doubles represent exactly.
-/

namespace Crp

/-- Is the first list a prefix of the second (character-wise)? -/
def isPfx : List Char → List Char → Bool
  | [], _ => true
  | _ :: _, [] => false
  | a :: as, b :: bs => a == b && isPfx as bs

/-- Python s.startswith(pre). -/
def pyStartsWith (s pre : String) : Bool := isPfx pre.data s.data

/-- Python s.endswith(suf). -/
def pyEndsWith (s suf : String) : Bool := isPfx suf.data.reverse s.data.reverse

/-- One fuel-indexed step list for Python s.replace(old, new) (all occurrences,
left to right, non-overlapping; old is nonempty in every use in the script). -/
def replaceFuel (old new : List Char) : Nat → List Char → List Char
  | _, [] => []
  | 0, l => l
  | fuel + 1, c :: cs =>
    if isPfx old (c :: cs) then
      new ++ replaceFuel old new fuel (List.drop (old.length - 1) cs)
    else
      c :: replaceFuel old new fuel cs

/-- Python s.replace(old, new). -/
def pyReplace (s old new : String) : String :=
  String.mk (replaceFuel old.data new.data s.data.length s.data)

/-- Python s.replace(old, new, count) for single-character old and new
(the script only uses replace(':', '-', 2)). -/
def replaceCharCount (old new : Char) : Nat → List Char → List Char
  | _, [] => []
  | 0, l => l
  | n + 1, c :: cs =>
    if c == old then new :: replaceCharCount old new n cs
    else c :: replaceCharCount old new (n + 1) cs

/-- Python s[:n]. -/
def pyTake (s : String) (n : Nat) : String := String.mk (s.data.take n)

/-- Python s.lower() (the script only lowercases ASCII file extensions). -/
def pyLower (s : String) : String := String.mk (s.data.map Char.toLower)

/-- os.path.join for the simple case used by the script (a directory that does
not end in a slash joined with a plain file name). -/
def pyJoin (folder file : String) : String := folder ++ "/" ++ file

/-- os.path.basename: the part of the path after the last slash. -/
def pyBasename (p : String) : String :=
  String.mk ((p.data.reverse.takeWhile (fun c => c != '/')).reverse)

/-- Code-point lexicographic strict order on character lists (Python string
comparison). -/
def charsLt : List Char → List Char → Bool
  | [], [] => false
  | [], _ :: _ => true
  | _ :: _, [] => false
  | a :: as, b :: bs => a < b || (a == b && charsLt as bs)

/-- Python string less-or-equal: x is less-or-equal to y iff not (y < x). -/
def strLe (x y : String) : Bool := !(charsLt y.data x.data)

/-- Insert into a sorted list (helper for the model of Python sorted()). -/
def sortInsert (x : String) : List String → List String
  | [] => [x]
  | y :: ys => if strLe x y then x :: y :: ys else y :: sortInsert x ys

/-- Python sorted() on a list of strings (insertion sort; stable, ascending). -/
def sortStr : List String → List String
  | [] => []
  | x :: xs => sortInsert x (sortStr xs)

/-- Python sorted(keys, reverse=True) for distinct strings: descending order. -/
def sortedRev (l : List String) : List String := (sortStr l).reverse

/-- A Python dictionary with string keys and values, as an insertion-ordered
association list (keys are never assigned twice in the modelled code). -/
abbrev Dict := List (String × String)

/-- Python dict lookup: d[k], with none modelling an uncaught KeyError. -/
def dget (d : Dict) (k : String) : Option String :=
  (d.find? (fun e => e.1 == k)).map (fun e => e.2)

/-- d.keys() in insertion order. -/
def keysOf (d : Dict) : List String := d.map (fun e => e.1)

/-- The body of analyse_folder's loop: classify one directory entry, returning
the dictionary it contributes (none when the file is skipped).  isfile is the
os.path.isfile oracle. -/
def classify_file (isfile : String → Bool) (folder_name files : String) : Option Dict :=
  if pyStartsWith files "." then none
  else if pyEndsWith files "_01_prsv.tif" then none
  else if pyEndsWith files "prsv.tif" then
    let preservation := pyJoin folder_name files
    let base : Dict := [("Preservation", preservation)]
    let withVariant : Dict :=
      if isfile (pyJoin folder_name (pyReplace files "prsv.tif" "01_prsv.tif")) then
        base ++
          [("Preservation_01", pyJoin folder_name (pyReplace files "prsv.tif" "01_prsv.tif")),
           ("Preservation_01_md5",
             pyJoin folder_name (pyReplace files "prsv.tif" "01_prsv.tif") ++ ".md5"),
           ("Access_01", pyJoin folder_name (pyReplace files "prsv.tif" "01_access.jpg")),
           ("Access_01_md5",
             pyJoin folder_name (pyReplace files "prsv.tif" "01_access.jpg") ++ ".md5")]
      else base
    let access := pyJoin folder_name (pyReplace files "prsv.tif" "access.jpg")
    some (withVariant ++
      [("Access", access),
       ("access_checksum", access ++ ".md5"),
       ("master_checksum", preservation ++ ".md5")])
  else if pyEndsWith files ".pdf" then
    some [("Print", pyJoin folder_name files),
          ("print_checksum", pyJoin folder_name files ++ ".md5")]
  else none

/-- analyse_folder: sort the directory listing, classify each entry, collect
the package-unit dictionaries. -/
def analyse_folder (isfile : String → Bool) (folder_name : String)
    (contents : List String) : List Dict :=
  (sortStr contents).filterMap (classify_file isfile folder_name)

/-- find_csv: scan the directory listing, repeatedly overwriting csv_path with
each non-hidden .csv entry (the loop's continue never breaks out), then fail
(sys.exit, modelled as none) if nothing matched. -/
def find_csv (source_directory : String) (file_list : List String) : Option String :=
  let csv_path := file_list.foldl
    (fun acc files =>
      if pyEndsWith files ".csv" then
        if !(pyStartsWith files ".") then pyJoin source_directory files else acc
      else acc) ""
  if csv_path == "" then none else some csv_path

/-- extract_checksum: the first 32 characters of the manifest's first line;
an empty file raises IndexError (none). -/
def extract_checksum (manifest_lines : List String) : Option String :=
  manifest_lines.head?.map (fun l => pyTake l 32)

/-- A JSON value in exiftool's output: the script only ever sees strings and
integers in the fields it reads. -/
inductive JVal where
  | jstr (s : String)
  | jint (n : Int)
deriving DecidableEq

/-- Python str(v) for a JSON value. -/
def JVal.toStr : JVal → String
  | .jstr s => s
  | .jint n => toString n

/-- Assigning a value to an lxml .text attribute requires a string; anything
else raises a TypeError (none). -/
def JVal.asStr : JVal → Option String
  | .jstr s => some s
  | .jint _ => none

/-- Parse the digits of a Python int literal (none on a non-digit or on an
empty digit string, i.e. ValueError). -/
def digitsToNat : Nat → List Char → Option Nat
  | acc, [] => some acc
  | acc, c :: cs => if c.isDigit then digitsToNat (acc * 10 + (c.toNat - 48)) cs else none

/-- Python int(s): strip whitespace, optional sign, then digits; ValueError
(none) otherwise. -/
def pyIntOfStr (s : String) : Option Int :=
  let cs := ((s.data.dropWhile Char.isWhitespace).reverse.dropWhile Char.isWhitespace).reverse
  match cs with
  | '-' :: (d :: ds) => (digitsToNat 0 (d :: ds)).map (fun n => -(n : Int))
  | '+' :: (d :: ds) => (digitsToNat 0 (d :: ds)).map (fun n => (n : Int))
  | d :: ds => (digitsToNat 0 (d :: ds)).map (fun n => (n : Int))
  | [] => none

/-- Python int(v) on a JSON value. -/
def JVal.toInt : JVal → Option Int
  | .jstr s => pyIntOfStr s
  | .jint n => some n

/-- Exiftool's parsed JSON object for one file: field name to value. -/
abbrev Exif := List (String × JVal)

/-- Python dict lookup on the exiftool object (none = KeyError). -/
def eget (e : Exif) (k : String) : Option JVal :=
  (e.find? (fun p => p.1 == k)).map (fun p => p.2)

/-- Python s.split() with no separator: split on whitespace runs, dropping
empty pieces. -/
def splitWsAux : List Char → List Char → List String
  | cur, [] => if cur.isEmpty then [] else [String.mk cur.reverse]
  | cur, c :: cs =>
    if c.isWhitespace then
      (if cur.isEmpty then [] else [String.mk cur.reverse]) ++ splitWsAux [] cs
    else splitWsAux (c :: cur) cs

/-- Python s.split(). -/
def pySplitWs (s : String) : List String := splitWsAux [] s.data

/-- The bit-depth computation (crp.py lines 392-400, already inside the
"extension is not pdf" guard): if the str() rendering of BitsPerSample has
length > 1, split it on whitespace, parse each piece as an int and sum;
otherwise multiply int(BitsPerSample) by int(ColorComponents).  none models an
uncaught KeyError or ValueError. -/
def bit_depth_text (ex : Exif) : Option String := do
  let bps ← eget ex "BitsPerSample"
  if bps.toStr.data.length > 1 then
    let bits ← (pySplitWs bps.toStr).mapM pyIntOfStr
    pure (toString (bits.foldl (· + ·) (0 : Int)))
  else
    let b ← bps.toInt
    let cc ← (← eget ex "ColorComponents").toInt
    pure (toString (b * cc))

/-- The size computation (crp.py line 387), in hundredths of a megabyte:
Python 2 evaluates getsize(f) / 1024 / 1024.0 as integer floor division by
1024 followed by exact float division by 1024.0, and round(x, 2) rounds half
away from zero; for a nonnegative dyadic x this is floor(100 * x + 1/2)
hundredths, computed here exactly over naturals. -/
def size_code_hundredths (bytes : Nat) : Nat := (100 * (bytes / 1024) + 512) / 1024

/-- Modelled from the claim: the file's size in bytes converted to megabytes
(divided by 2 to the 20th) and rounded half away from zero to 2 decimal
places, in hundredths of a megabyte. -/
def size_claim_hundredths (bytes : Nat) : Nat := (100 * bytes + 524288) / 1048576

/-- Rendering of Python str(round(x, 2)) for the nonnegative rounded value
given in hundredths: Python 2 drops trailing fractional zeros but always
keeps at least one fractional digit. -/
def floatStr2 (h : Nat) : String :=
  let whole := toString (h / 100)
  let frac := h % 100
  if frac == 0 then whole ++ ".0"
  else if frac % 10 == 0 then whole ++ "." ++ toString (frac / 10)
  else if frac < 10 then whole ++ ".0" ++ toString frac
  else whole ++ "." ++ toString frac

/-- Python list.insert(i, x) / lxml parent.insert(i, el): insert at position i,
clamped to the end when i exceeds the current length. -/
def pyInsert {α : Type} (l : List α) (i : Nat) (x : α) : List α :=
  l.take i ++ x :: l.drop i

/-- The 18 technical element names in the order create_instantiations declares
them (crp.py lines 315-334). -/
def declaredNames : List String :=
  ["digitalFileIdentifier", "creationDate", "fileExtension", "standardAndFileWrapper",
   "size", "bitDepth", "imageWidth", "imageLength", "compression", "samplesPerPixel",
   "xResolution", "yResolution", "md5", "creatingApplicationAndVersion", "derivedFrom",
   "digitizerManufacturer", "digitizerModel", "imageProducer"]

/-- The order in which the technical child elements end up under the technical
element: each is inserted at index counter, and counter (starting at 1) is
incremented only when the generation is not Print (crp.py lines 293, 335-342). -/
def create_instantiations_order (generation : String) : List String :=
  let isPrint := generation == "Print"
  (declaredNames.foldl
    (fun (acc : List String × Nat) name =>
      (pyInsert acc.1 acc.2 name, if isPrint then acc.2 else acc.2 + 1))
    ([], 1)).1

/-- Normalisation of the dictionary key to the generation used for the
template and the generation attribute (crp.py lines 355-360). -/
def normGen (sub_item : String) : String :=
  if sub_item == "Preservation_01" then "Preservation"
  else if sub_item == "Access_01" then "Access"
  else sub_item

/-- The derivedFrom / md5 pair per dictionary key (crp.py lines 405-419).
checksum_of is the composition of extract_checksum with reading the manifest
file at the given path; none models an uncaught KeyError on the package
dictionary.  The final catch-all is unreachable: the caller only passes one of
the five generation keys. -/
def derived_md5 (checksum_of : String → String) (objectIdentifier : String)
    (package : Dict) (sub_item : String) : Option (String × String) :=
  if sub_item == "Preservation" then
    (dget package "master_checksum").map (fun mc => (objectIdentifier, checksum_of mc))
  else if sub_item == "Access" then do
    let pres ← dget package "Preservation"
    let ac ← dget package "access_checksum"
    pure (pyBasename pres, checksum_of ac)
  else if sub_item == "Print" then
    (dget package "print_checksum").map
      (fun pc => ("Bound from multiple tiff files", checksum_of pc))
  else if sub_item == "Preservation_01" then
    (dget package "Preservation_01_md5").map (fun mc => (objectIdentifier, checksum_of mc))
  else if sub_item == "Access_01" then do
    let pres ← dget package "Preservation"
    let ac ← dget package "Access_01_md5"
    pure (pyBasename pres, checksum_of ac)
  else pure ("", "")

/-- The text (or removal) of each technical child element by name, given the
already extracted values: an entry of none means the element was removed from
the tree (the five optional try/except fields when exiftool lacks the source
field); an entry some (name, none) is an element whose text was never set. -/
def tech_entry_val (path creationDate sizeText mime ext md5v dfv : String)
    (raster : Option (String × String × String × String × String))
    (spp comp app make model : Option JVal) (n : String) :
    Option (Option String) :=
  if n == "samplesPerPixel" then spp.map (fun v => some v.toStr)
  else if n == "compression" then comp.map (fun v => some v.toStr)
  else if n == "creatingApplicationAndVersion" then app.map (fun v => some v.toStr)
  else if n == "digitizerManufacturer" then make.map (fun v => some v.toStr)
  else if n == "digitizerModel" then model.map (fun v => some v.toStr)
  else if n == "digitalFileIdentifier" then some (some (pyBasename path))
  else if n == "creationDate" then some (some creationDate)
  else if n == "fileExtension" then some (some ext)
  else if n == "standardAndFileWrapper" then some (some mime)
  else if n == "size" then some (some sizeText)
  else if n == "bitDepth" then some (raster.map (fun r => r.1))
  else if n == "imageWidth" then some (raster.map (fun r => r.2.1))
  else if n == "imageLength" then some (raster.map (fun r => r.2.2.1))
  else if n == "xResolution" then some (raster.map (fun r => r.2.2.2.1))
  else if n == "yResolution" then some (raster.map (fun r => r.2.2.2.2))
  else if n == "md5" then some (some md5v)
  else if n == "derivedFrom" then some (some dfv)
  else some none

/-- The tagged entry for one technical child (tag paired with
tech_entry_val). -/
def tech_entry (path creationDate sizeText mime ext md5v dfv : String)
    (raster : Option (String × String × String × String × String))
    (spp comp app make model : Option JVal) (n : String) :
    Option (String × Option String) :=
  (tech_entry_val path creationDate sizeText mime ext md5v dfv raster
    spp comp app make model n).map (fun txt => (n, txt))

/-- The raster block (crp.py lines 392-404): populated only when the
lowercased extension is not pdf; none models an uncaught exception. -/
def raster_fields (ex : Exif) (ext : String) :
    Option (Option (String × String × String × String × String)) :=
  if !(pyLower ext == "pdf") then do
    let bd ← bit_depth_text ex
    let w ← eget ex "ImageWidth"
    let hgt ← eget ex "ImageHeight"
    let xr ← eget ex "XResolution"
    let yr ← eget ex "YResolution"
    pure (some (bd, w.toStr, hgt.toStr, xr.toStr, yr.toStr))
  else pure none

/-- The ordered technical children given all extracted values. -/
def tech_children (names : List String) (path creationDate sizeText mime ext md5v dfv : String)
    (raster : Option (String × String × String × String × String))
    (spp comp app make model : Option JVal) : List (String × Option String) :=
  names.filterMap
    (tech_entry path creationDate sizeText mime ext md5v dfv raster spp comp app make model)

/-- The per-instantiation body of techncial_metadata (crp.py lines 380-439):
build the ordered technical children for one generation key of one package
unit.  getsize and exif_of are the os.path.getsize and exiftool oracles.
The result lists the technical children in tree order, each with its text;
none models an uncaught exception (KeyError on a required exiftool field or on
the package dictionary, TypeError on a non-string text assignment,
ValueError from int()). -/
def build_technical (checksum_of : String → String) (getsize : String → Nat)
    (exif_of : String → Exif) (objectIdentifier : String)
    (package : Dict) (sub_item : String) : Option (List (String × Option String)) := do
  let gen := normGen sub_item
  let names := create_instantiations_order gen
  let path ← dget package sub_item
  let ex := exif_of path
  let fmd ← (← eget ex "FileModifyDate").asStr
  let creationDate := pyTake (String.mk (replaceCharCount ':' '-' 2 fmd.data)) 19
  let sizeText := floatStr2 (size_code_hundredths (getsize path))
  let mime ← (← eget ex "MIMEType").asStr
  let ext ← (← eget ex "FileTypeExtension").asStr
  let raster ← raster_fields ex ext
  let dm ← derived_md5 checksum_of objectIdentifier package sub_item
  pure (tech_children names path creationDate sizeText mime ext dm.2 dm.1 raster
    (eget ex "ColorComponents") (eget ex "Compression") (eget ex "CreatorTool")
    (eget ex "Make") (eget ex "Model"))

/-- One instantiation as it ends up under the AssetPart element: the
relationship attribute of the instantations wrapper, the generation attribute,
and the ordered technical children (before the final pruning pass). -/
structure Instantiation where
  relationship : String
  generation : String
  technical : List (String × Option String)
deriving DecidableEq

/-- One call of create_instantiations plus the population code: the wrapper's
relationship attribute is "object" for Print and "Page counter" otherwise
(crp.py lines 300-303, 309). -/
def build_instantiation (checksum_of : String → String) (getsize : String → Nat)
    (exif_of : String → Exif) (objectIdentifier : String)
    (package : Dict) (sub_item : String) (counter : Nat) : Option Instantiation :=
  let gen := normGen sub_item
  (build_technical checksum_of getsize exif_of objectIdentifier package sub_item).map
    (fun t =>
      { relationship := if gen == "Print" then "object" else "Page " ++ toString counter
        generation := gen
        technical := t })

/-- The five-way key test of crp.py line 354. -/
def isGenKey (k : String) : Bool :=
  k == "Access" || k == "Preservation" || k == "Print" ||
    k == "Preservation_01" || k == "Access_01"

/-- The inner loop of techncial_metadata over one package's reverse-sorted
keys: build an instantiation for each generation key, skip the rest. -/
def unit_blocks (checksum_of : String → String) (getsize : String → Nat)
    (exif_of : String → Exif) (objectIdentifier : String)
    (counter : Nat) (package : Dict) : List String → Option (List Instantiation)
  | [] => some []
  | k :: ks =>
    if isGenKey k then
      match build_instantiation checksum_of getsize exif_of objectIdentifier
          package k counter with
      | none => none
      | some b =>
        (unit_blocks checksum_of getsize exif_of objectIdentifier counter package ks).map
          (fun bs => b :: bs)
    else unit_blocks checksum_of getsize exif_of objectIdentifier counter package ks

/-- The outer loop of techncial_metadata (crp.py lines 350-441): counter
starts at 1; after each package's keys are processed, the leaked loop variable
sub_item holds the last key iterated (or its previous value when the key list
was empty; NameError, none, if there is none at all), and the counter is
incremented when that last key is not Print. -/
def tm_go (checksum_of : String → String) (getsize : String → Nat)
    (exif_of : String → Exif) (objectIdentifier : String) :
    Nat → Option String → List Dict → Option (List Instantiation)
  | _, _, [] => some []
  | c, prev, p :: ps =>
    let ks := sortedRev (keysOf p)
    match unit_blocks checksum_of getsize exif_of objectIdentifier c p ks with
    | none => none
    | some bs =>
      match (if ks.isEmpty then prev else ks.getLast?) with
      | none => none
      | some last =>
        let c2 := if last == "Print" then c else c + 1
        match tm_go checksum_of getsize exif_of objectIdentifier c2 (some last) ps with
        | none => none
        | some rest => some (bs ++ rest)

/-- techncial_metadata: process every package unit, threading the
instantiation counter from 1. -/
def techncial_metadata (checksum_of : String → String) (getsize : String → Nat)
    (exif_of : String → Exif) (objectIdentifier : String)
    (package_info : List Dict) : Option (List Instantiation) :=
  tm_go checksum_of getsize exif_of objectIdentifier 1 none package_info

/-- An lxml element: tag name, text (none when .text was never assigned; some
of a string, possibly empty, when it was — lxml keeps an empty text node for
an assigned empty string, serializing an uncollapsed element, as the comment
at crp.py lines 568-569 records), and child elements. -/
inductive XTree where
  | node (name : String) (text : Option String) (children : List XTree)

/-- Does the element match the XPath node() test on its children, i.e. does it
have a text node or a child element? -/
def hasNode : XTree → Bool
  | .node _ t c => t.isSome || !c.isEmpty

mutual

/-- The final pruning pass of main (crp.py lines 570-571): the XPath query
collects every descendant with no text node and no children as of query time,
then each is removed from its parent.  Since every collected element is a
leaf, this equals one simultaneous filter over the original tree. -/
def pruneOnce : XTree → XTree
  | .node n t children => .node n t (pruneList children)

/-- Prune a sibling list: drop the members that were empty, recurse into the
rest. -/
def pruneList : List XTree → List XTree
  | [] => []
  | c :: cs => if hasNode c then pruneOnce c :: pruneList cs else pruneList cs

end

mutual

/-- Number of proper descendant elements of an element. -/
def countElems : XTree → Nat
  | .node _ _ children => countElemsL children

def countElemsL : List XTree → Nat
  | [] => 0
  | c :: cs => 1 + countElems c + countElemsL cs

end

mutual

/-- Number of proper descendant elements with no text node and no children
(the elements the XPath query of the pruning pass collects). -/
def countEmpty : XTree → Nat
  | .node _ _ children => countEmptyL children

def countEmptyL : List XTree → Nat
  | [] => 0
  | c :: cs => (if hasNode c then 0 else 1) + countEmpty c + countEmptyL cs

end

mutual

/-- Is some proper descendant an element with no text node and no children? -/
def hasEmptyDescendant : XTree → Bool
  | .node _ _ children => hasEmptyDescendantL children

def hasEmptyDescendantL : List XTree → Bool
  | [] => false
  | c :: cs => !hasNode c || hasEmptyDescendant c || hasEmptyDescendantL cs

end

/-- Lookup of a technical child element by name: the element's text if an
element with that tag is present, none if it was removed. -/
def lookupT (t : List (String × Option String)) (n : String) : Option (Option String) :=
  (t.find? (fun e => e.1 == n)).map (fun e => e.2)

/-- The technical element of one instantiation as an lxml tree. -/
def technical_tree (t : List (String × Option String)) : XTree :=
  .node "technical" none (t.map (fun e => .node e.1 e.2 []))

/-- The names of an element's children. -/
def childNames : XTree → List String
  | .node _ _ children => children.map (fun c => match c with | .node n _ _ => n)

/-- The technical child names of one instantiation that survive the final
pruning pass, in tree order. -/
def techNames (t : List (String × Option String)) : List String :=
  childNames (pruneOnce (technical_tree t))

/-- Every dictionary classify_file emits has one of three exact shapes: a base
TIFF unit, a TIFF unit with the _01 variant block, or a Print unit (helper for
several claims). -/
theorem classify_file_shapes (isfile : String → Bool) (folder_name f : String) (p : Dict)
    (h : classify_file isfile folder_name f = some p) :
    (∃ pres acc, p =
      [("Preservation", pres), ("Access", acc),
       ("access_checksum", acc ++ ".md5"), ("master_checksum", pres ++ ".md5")])
  ∨ (∃ pres p01 a01 acc, p =
      [("Preservation", pres), ("Preservation_01", p01), ("Preservation_01_md5", p01 ++ ".md5"),
       ("Access_01", a01), ("Access_01_md5", a01 ++ ".md5"), ("Access", acc),
       ("access_checksum", acc ++ ".md5"), ("master_checksum", pres ++ ".md5")])
  ∨ (∃ pr, p = [("Print", pr), ("print_checksum", pr ++ ".md5")]) := by
  unfold classify_file at h
  split_ifs at h with h1 h2 h3 h4 h5
  · simp only [Option.some.injEq] at h
    right; left
    exact ⟨_, _, _, _, h.symm⟩
  · simp only [Option.some.injEq] at h
    left
    exact ⟨_, _, h.symm⟩
  · simp only [Option.some.injEq] at h
    right; right
    exact ⟨_, h.symm⟩

/-- Every unit analyse_folder emits has one of the three classify_file shapes
(helper for several claims). -/
theorem analyse_folder_shapes (isfile : String → Bool) (folder_name : String)
    (contents : List String) (p : Dict) (hp : p ∈ analyse_folder isfile folder_name contents) :
    (∃ pres acc, p =
      [("Preservation", pres), ("Access", acc),
       ("access_checksum", acc ++ ".md5"), ("master_checksum", pres ++ ".md5")])
  ∨ (∃ pres p01 a01 acc, p =
      [("Preservation", pres), ("Preservation_01", p01), ("Preservation_01_md5", p01 ++ ".md5"),
       ("Access_01", a01), ("Access_01_md5", a01 ++ ".md5"), ("Access", acc),
       ("access_checksum", acc ++ ".md5"), ("master_checksum", pres ++ ".md5")])
  ∨ (∃ pr, p = [("Print", pr), ("print_checksum", pr ++ ".md5")]) := by
  unfold analyse_folder at hp
  rw [List.mem_filterMap] at hp
  obtain ⟨f, -, hf⟩ := hp
  exact classify_file_shapes isfile folder_name f p hf

/-- C10: every unit analyse_folder emits has exactly one of the keys
Preservation or Print; a Preservation unit also carries Access,
access_checksum and master_checksum, whose values are fixed string
substitutions on the preservation file name (independent of the isfile
oracle, i.e. no existence check); a Print unit also carries print_checksum. -/
theorem C10_unit_invariant (isfile : String → Bool) (folder_name : String)
    (contents : List String) (p : Dict)
    (hp : p ∈ analyse_folder isfile folder_name contents) :
    (∃ f, pyEndsWith f "prsv.tif" = true
       ∧ dget p "Preservation" = some (pyJoin folder_name f)
       ∧ dget p "Print" = none
       ∧ dget p "Access" = some (pyJoin folder_name (pyReplace f "prsv.tif" "access.jpg"))
       ∧ dget p "access_checksum"
           = some (pyJoin folder_name (pyReplace f "prsv.tif" "access.jpg") ++ ".md5")
       ∧ dget p "master_checksum" = some (pyJoin folder_name f ++ ".md5"))
  ∨ (∃ f, pyEndsWith f ".pdf" = true
       ∧ dget p "Print" = some (pyJoin folder_name f)
       ∧ dget p "Preservation" = none
       ∧ dget p "print_checksum" = some (pyJoin folder_name f ++ ".md5")) := by
  unfold analyse_folder at hp
  rw [List.mem_filterMap] at hp
  obtain ⟨f, -, hf⟩ := hp
  unfold classify_file at hf
  split_ifs at hf with h1 h2 h3 h4 h5
  · simp only [Option.some.injEq] at hf
    subst hf
    exact Or.inl ⟨f, h3, rfl, rfl, rfl, rfl, rfl⟩
  · simp only [Option.some.injEq] at hf
    subst hf
    exact Or.inl ⟨f, h3, rfl, rfl, rfl, rfl, rfl⟩
  · simp only [Option.some.injEq] at hf
    subst hf
    exact Or.inr ⟨f, h5, rfl, rfl, rfl⟩

/-- Witness for C10_unit_invariant on a concrete directory. -/
theorem C10_unit_invariant_witness :
    (∃ f, pyEndsWith f "prsv.tif" = true
       ∧ dget [("Preservation", "obj/X_prsv.tif"), ("Access", "obj/X_access.jpg"),
           ("access_checksum", "obj/X_access.jpg.md5"),
           ("master_checksum", "obj/X_prsv.tif.md5")] "Preservation"
           = some (pyJoin "obj" f)
       ∧ dget [("Preservation", "obj/X_prsv.tif"), ("Access", "obj/X_access.jpg"),
           ("access_checksum", "obj/X_access.jpg.md5"),
           ("master_checksum", "obj/X_prsv.tif.md5")] "Print" = none
       ∧ dget [("Preservation", "obj/X_prsv.tif"), ("Access", "obj/X_access.jpg"),
           ("access_checksum", "obj/X_access.jpg.md5"),
           ("master_checksum", "obj/X_prsv.tif.md5")] "Access"
           = some (pyJoin "obj" (pyReplace f "prsv.tif" "access.jpg"))
       ∧ dget [("Preservation", "obj/X_prsv.tif"), ("Access", "obj/X_access.jpg"),
           ("access_checksum", "obj/X_access.jpg.md5"),
           ("master_checksum", "obj/X_prsv.tif.md5")] "access_checksum"
           = some (pyJoin "obj" (pyReplace f "prsv.tif" "access.jpg") ++ ".md5")
       ∧ dget [("Preservation", "obj/X_prsv.tif"), ("Access", "obj/X_access.jpg"),
           ("access_checksum", "obj/X_access.jpg.md5"),
           ("master_checksum", "obj/X_prsv.tif.md5")] "master_checksum"
           = some (pyJoin "obj" f ++ ".md5"))
  ∨ (∃ f, pyEndsWith f ".pdf" = true
       ∧ dget [("Preservation", "obj/X_prsv.tif"), ("Access", "obj/X_access.jpg"),
           ("access_checksum", "obj/X_access.jpg.md5"),
           ("master_checksum", "obj/X_prsv.tif.md5")] "Print" = some (pyJoin "obj" f)
       ∧ dget [("Preservation", "obj/X_prsv.tif"), ("Access", "obj/X_access.jpg"),
           ("access_checksum", "obj/X_access.jpg.md5"),
           ("master_checksum", "obj/X_prsv.tif.md5")] "Preservation" = none
       ∧ dget [("Preservation", "obj/X_prsv.tif"), ("Access", "obj/X_access.jpg"),
           ("access_checksum", "obj/X_access.jpg.md5"),
           ("master_checksum", "obj/X_prsv.tif.md5")] "print_checksum"
           = some (pyJoin "obj" f ++ ".md5")) :=
  C10_unit_invariant (fun _ => false) "obj" ["X_prsv.tif"] _ (by decide)

/-- C5: a directory with exactly X_prsv.tif, X_prsv.tif.md5, X_access.jpg,
X_access.jpg.md5 yields exactly one package unit whose keys are Preservation,
Access, access_checksum, master_checksum (no _01 keys); adding X_01_prsv.tif,
X_01_access.jpg and their .md5 manifests leaves a single unit that gains
exactly Preservation_01, Preservation_01_md5, Access_01, Access_01_md5, and
the X_01_prsv.tif file is never classified as a unit of its own. -/
theorem C5_package_analyzer_units :
    ((analyse_folder
        (fun q => (["X_prsv.tif", "X_prsv.tif.md5", "X_access.jpg",
          "X_access.jpg.md5"].map (pyJoin "obj")).contains q) "obj"
        ["X_prsv.tif", "X_prsv.tif.md5", "X_access.jpg", "X_access.jpg.md5"]).map keysOf
      = [["Preservation", "Access", "access_checksum", "master_checksum"]])
  ∧ ((analyse_folder
        (fun q => (["X_prsv.tif", "X_prsv.tif.md5", "X_access.jpg", "X_access.jpg.md5",
          "X_01_prsv.tif", "X_01_prsv.tif.md5", "X_01_access.jpg",
          "X_01_access.jpg.md5"].map (pyJoin "obj")).contains q) "obj"
        ["X_prsv.tif", "X_prsv.tif.md5", "X_access.jpg", "X_access.jpg.md5",
         "X_01_prsv.tif", "X_01_prsv.tif.md5", "X_01_access.jpg", "X_01_access.jpg.md5"]).map
        keysOf
      = [["Preservation", "Preservation_01", "Preservation_01_md5", "Access_01",
          "Access_01_md5", "Access", "access_checksum", "master_checksum"]]) := by
  decide

/-- C7 (code bug): the loop in find_csv never breaks, so with listing
[a.csv, b.csv] it returns the LAST non-hidden .csv, d/b.csv, although its own
docstring says the first found is used; with no .csv it fails (sys.exit). -/
theorem C7_find_csv_returns_last :
    find_csv "d" ["a.csv", "b.csv"] = some "d/b.csv"
  ∧ find_csv "d" ["readme.txt", ".hidden.csv"] = none := by
  decide

/-- C8 counterexample: at 5243 bytes the code writes 0.00 megabytes (it first
floor-divides by 1024), while bytes converted to megabytes and rounded to two
decimals is 0.01. -/
theorem C8_size_counterexample :
    size_code_hundredths 5243 = 0 ∧ size_claim_hundredths 5243 = 1
  ∧ floatStr2 (size_code_hundredths 5243) = "0.0" := by
  decide

/-- C8 (amended): the size written is the byte count first truncated to whole
kibibytes (Python 2 integer division by 1024), then divided by 1024.0 and
rounded half away from zero to two decimals; it never exceeds the claimed
rounding of bytes divided by 2 to the 20th and falls short of it by at most
one hundredth of a megabyte. -/
theorem C8_size_truncated_kibibytes (bytes : Nat) :
    size_code_hundredths bytes ≤ size_claim_hundredths bytes
  ∧ size_claim_hundredths bytes ≤ size_code_hundredths bytes + 1 := by
  unfold size_code_hundredths size_claim_hundredths
  omega

/-- tech_entry always returns a pair whose tag is the requested name (helper
lemma). -/
theorem tech_entry_key (path cd sz mime ext md5v dfv : String)
    (raster : Option (String × String × String × String × String))
    (spp comp app make model : Option JVal) (n : String) (x : String × Option String)
    (hx : tech_entry path cd sz mime ext md5v dfv raster spp comp app make model n = some x) :
    x.1 = n := by
  unfold tech_entry at hx
  obtain ⟨txt, -, rfl⟩ := Option.map_eq_some'.mp hx
  rfl

/-- find? by tag over a filterMap whose entries keep their tag finds exactly
the entry of that tag (helper lemma). -/
theorem find_entry_some {β : Type} (entry : String → Option (String × β))
    (names : List String) (hkey : ∀ m x, entry m = some x → x.1 = m)
    (n : String) (hn : n ∈ names) (x : String × β) (hx : entry n = some x) :
    (names.filterMap entry).find? (fun e => e.1 == n) = some x := by
  induction names with
  | nil => cases hn
  | cons m ms ih =>
    by_cases hmn : m = n
    · subst hmn
      rw [List.filterMap_cons_some hx]
      refine List.find?_cons_of_pos _ ?_
      show (x.1 == m) = true
      rw [hkey m x hx]
      exact beq_self_eq_true m
    · have hn2 : n ∈ ms := (List.mem_cons.mp hn).resolve_left (fun h => hmn h.symm)
      cases hem : entry m with
      | none =>
        rw [List.filterMap_cons_none hem]
        exact ih hn2
      | some y =>
        rw [List.filterMap_cons_some hem]
        rw [List.find?_cons_of_neg]
        · exact ih hn2
        · show ¬(y.1 == n) = true
          rw [hkey m y hem]
          simp [hmn]

/-- find? by tag over a filterMap whose entries keep their tag finds nothing
when the entry of that tag was dropped (helper lemma). -/
theorem find_entry_none {β : Type} (entry : String → Option (String × β))
    (names : List String) (hkey : ∀ m x, entry m = some x → x.1 = m)
    (n : String) (hx : entry n = none) :
    (names.filterMap entry).find? (fun e => e.1 == n) = none := by
  induction names with
  | nil => rfl
  | cons m ms ih =>
    cases hem : entry m with
    | none =>
      rw [List.filterMap_cons_none hem]
      exact ih
    | some y =>
      rw [List.filterMap_cons_some hem]
      rw [List.find?_cons_of_neg]
      · exact ih
      · show ¬(y.1 == n) = true
        rw [hkey m y hem]
        refine fun hbeq => ?_
        have hmn : m = n := by
          have := beq_iff_eq.mp hbeq
          exact this
        rw [hmn] at hem
        rw [hem] at hx
        exact Option.noConfusion hx

/-- Looking up a populated technical child (helper lemma). -/
theorem lookupT_tech_children (names : List String)
    (path cd sz mime ext md5v dfv : String)
    (raster : Option (String × String × String × String × String))
    (spp comp app make model : Option JVal) (n : String) (x : String × Option String)
    (hn : n ∈ names)
    (hx : tech_entry path cd sz mime ext md5v dfv raster spp comp app make model n = some x) :
    lookupT (tech_children names path cd sz mime ext md5v dfv raster spp comp app make model) n
      = some x.2 := by
  unfold lookupT tech_children
  rw [find_entry_some _ names (tech_entry_key path cd sz mime ext md5v dfv raster
    spp comp app make model) n hn x hx]
  rfl

/-- Looking up a removed technical child (helper lemma). -/
theorem lookupT_tech_children_none (names : List String)
    (path cd sz mime ext md5v dfv : String)
    (raster : Option (String × String × String × String × String))
    (spp comp app make model : Option JVal) (n : String)
    (hx : tech_entry path cd sz mime ext md5v dfv raster spp comp app make model n = none) :
    lookupT (tech_children names path cd sz mime ext md5v dfv raster spp comp app make model) n
      = none := by
  unfold lookupT tech_children
  rw [find_entry_none _ names (tech_entry_key path cd sz mime ext md5v dfv raster
    spp comp app make model) n hx]
  rfl

/-- Unfolding a successful build_technical run into its extracted pieces
(helper lemma). -/
theorem build_technical_eq_some (cs : String → String) (gs : String → Nat)
    (eo : String → Exif) (oid : String) (p : Dict) (s : String)
    (t : List (String × Option String))
    (h : build_technical cs gs eo oid p s = some t) :
    ∃ path fmdJ fmd mimeJ mime extJ ext raster dm,
      dget p s = some path
      ∧ eget (eo path) "FileModifyDate" = some fmdJ ∧ JVal.asStr fmdJ = some fmd
      ∧ eget (eo path) "MIMEType" = some mimeJ ∧ JVal.asStr mimeJ = some mime
      ∧ eget (eo path) "FileTypeExtension" = some extJ ∧ JVal.asStr extJ = some ext
      ∧ raster_fields (eo path) ext = some raster
      ∧ derived_md5 cs oid p s = some dm
      ∧ t = tech_children (create_instantiations_order (normGen s)) path
          (pyTake (String.mk (replaceCharCount ':' '-' 2 fmd.data)) 19)
          (floatStr2 (size_code_hundredths (gs path))) mime ext dm.2 dm.1 raster
          (eget (eo path) "ColorComponents") (eget (eo path) "Compression")
          (eget (eo path) "CreatorTool") (eget (eo path) "Make")
          (eget (eo path) "Model") := by
  unfold build_technical at h
  simp only [bind, Option.bind_eq_some, Option.pure_def, Option.some.injEq] at h
  obtain ⟨path, hpath, fmdJ, hfmdJ, fmd, hfmd, mimeJ, hmimeJ, mime, hmime, extJ, hextJ,
    ext, hext, raster, hraster, dm, hdm, ht⟩ := h
  exact ⟨path, fmdJ, fmd, mimeJ, mime, extJ, ext, raster, dm, hpath, hfmdJ, hfmd,
    hmimeJ, hmime, hextJ, hext, hraster, hdm, ht.symm⟩

/-- The technical template order is the declared one for every non-Print
generation and the Print one otherwise (helper lemma). -/
theorem create_instantiations_order_cases (g : String) :
    create_instantiations_order g = declaredNames
  ∨ create_instantiations_order g = create_instantiations_order "Print" := by
  cases hg : (g == "Print") with
  | false =>
    left
    simp only [create_instantiations_order, hg]
    decide
  | true =>
    right
    simp only [create_instantiations_order, hg]
    decide

/-- C2: for every package unit, a successful Preservation (resp.
Preservation_01) instantiation carries derivedFrom = the record's Object
Identifier and md5 = the checksum extracted from the unit's master_checksum
(resp. Preservation_01_md5) path; a successful Access (resp. Access_01)
instantiation carries derivedFrom = the basename of the unit's Preservation
path and md5 = the checksum from the access_checksum (resp. Access_01_md5)
path; a successful Print instantiation carries derivedFrom = "Bound from
multiple tiff files" and md5 = the checksum from the print_checksum path. -/
theorem C2_derivation_and_checksums (cs : String → String) (gs : String → Nat)
    (eo : String → Exif) (oid : String) (p : Dict) (t : List (String × Option String)) :
    (build_technical cs gs eo oid p "Preservation" = some t →
      ∃ mc, dget p "master_checksum" = some mc
        ∧ lookupT t "derivedFrom" = some (some oid)
        ∧ lookupT t "md5" = some (some (cs mc)))
  ∧ (build_technical cs gs eo oid p "Access" = some t →
      ∃ pres ac, dget p "Preservation" = some pres ∧ dget p "access_checksum" = some ac
        ∧ lookupT t "derivedFrom" = some (some (pyBasename pres))
        ∧ lookupT t "md5" = some (some (cs ac)))
  ∧ (build_technical cs gs eo oid p "Print" = some t →
      ∃ pc, dget p "print_checksum" = some pc
        ∧ lookupT t "derivedFrom" = some (some "Bound from multiple tiff files")
        ∧ lookupT t "md5" = some (some (cs pc)))
  ∧ (build_technical cs gs eo oid p "Preservation_01" = some t →
      ∃ mc, dget p "Preservation_01_md5" = some mc
        ∧ lookupT t "derivedFrom" = some (some oid)
        ∧ lookupT t "md5" = some (some (cs mc)))
  ∧ (build_technical cs gs eo oid p "Access_01" = some t →
      ∃ pres ac, dget p "Preservation" = some pres ∧ dget p "Access_01_md5" = some ac
        ∧ lookupT t "derivedFrom" = some (some (pyBasename pres))
        ∧ lookupT t "md5" = some (some (cs ac)))  := by
  refine ⟨?_, ?_, ?_, ?_, ?_⟩
  · intro h
    obtain ⟨path, fmdJ, fmd, mimeJ, mime, extJ, ext, raster, dm, hpath, -, -, -, -, -, -,
      hraster, hdm, ht⟩ := build_technical_eq_some cs gs eo oid p "Preservation" t h
    have hdm2 : derived_md5 cs oid p "Preservation"
        = (dget p "master_checksum").map (fun mc => (oid, cs mc)) := rfl
    rw [hdm2] at hdm
    obtain ⟨mc, hmc, rfl⟩ := Option.map_eq_some'.mp hdm
    subst ht
    exact ⟨mc, hmc,
      lookupT_tech_children _ _ _ _ _ _ _ _ _ _ _ _ _ _
        "derivedFrom" ("derivedFrom", some oid) (by decide) rfl,
      lookupT_tech_children _ _ _ _ _ _ _ _ _ _ _ _ _ _
        "md5" ("md5", some (cs mc)) (by decide) rfl⟩
  · intro h
    obtain ⟨path, fmdJ, fmd, mimeJ, mime, extJ, ext, raster, dm, hpath, -, -, -, -, -, -,
      hraster, hdm, ht⟩ := build_technical_eq_some cs gs eo oid p "Access" t h
    have hdm2 : derived_md5 cs oid p "Access"
        = Option.bind (dget p "Preservation") (fun pres =>
            Option.bind (dget p "access_checksum") (fun ac =>
              some (pyBasename pres, cs ac))) := rfl
    rw [hdm2, Option.bind_eq_some] at hdm
    obtain ⟨pres, hpres, hdm⟩ := hdm
    rw [Option.bind_eq_some] at hdm
    obtain ⟨ac, hac, hdm⟩ := hdm
    cases hdm
    subst ht
    exact ⟨pres, ac, hpres, hac,
      lookupT_tech_children _ _ _ _ _ _ _ _ _ _ _ _ _ _
        "derivedFrom" ("derivedFrom", some (pyBasename pres)) (by decide) rfl,
      lookupT_tech_children _ _ _ _ _ _ _ _ _ _ _ _ _ _
        "md5" ("md5", some (cs ac)) (by decide) rfl⟩
  · intro h
    obtain ⟨path, fmdJ, fmd, mimeJ, mime, extJ, ext, raster, dm, hpath, -, -, -, -, -, -,
      hraster, hdm, ht⟩ := build_technical_eq_some cs gs eo oid p "Print" t h
    have hdm2 : derived_md5 cs oid p "Print"
        = (dget p "print_checksum").map
            (fun pc => ("Bound from multiple tiff files", cs pc)) := rfl
    rw [hdm2] at hdm
    obtain ⟨pc, hpc, rfl⟩ := Option.map_eq_some'.mp hdm
    subst ht
    exact ⟨pc, hpc,
      lookupT_tech_children _ _ _ _ _ _ _ _ _ _ _ _ _ _
        "derivedFrom" ("derivedFrom", some "Bound from multiple tiff files") (by decide) rfl,
      lookupT_tech_children _ _ _ _ _ _ _ _ _ _ _ _ _ _
        "md5" ("md5", some (cs pc)) (by decide) rfl⟩
  · intro h
    obtain ⟨path, fmdJ, fmd, mimeJ, mime, extJ, ext, raster, dm, hpath, -, -, -, -, -, -,
      hraster, hdm, ht⟩ := build_technical_eq_some cs gs eo oid p "Preservation_01" t h
    have hdm2 : derived_md5 cs oid p "Preservation_01"
        = (dget p "Preservation_01_md5").map (fun mc => (oid, cs mc)) := rfl
    rw [hdm2] at hdm
    obtain ⟨mc, hmc, rfl⟩ := Option.map_eq_some'.mp hdm
    subst ht
    exact ⟨mc, hmc,
      lookupT_tech_children _ _ _ _ _ _ _ _ _ _ _ _ _ _
        "derivedFrom" ("derivedFrom", some oid) (by decide) rfl,
      lookupT_tech_children _ _ _ _ _ _ _ _ _ _ _ _ _ _
        "md5" ("md5", some (cs mc)) (by decide) rfl⟩
  · intro h
    obtain ⟨path, fmdJ, fmd, mimeJ, mime, extJ, ext, raster, dm, hpath, -, -, -, -, -, -,
      hraster, hdm, ht⟩ := build_technical_eq_some cs gs eo oid p "Access_01" t h
    have hdm2 : derived_md5 cs oid p "Access_01"
        = Option.bind (dget p "Preservation") (fun pres =>
            Option.bind (dget p "Access_01_md5") (fun ac =>
              some (pyBasename pres, cs ac))) := rfl
    rw [hdm2, Option.bind_eq_some] at hdm
    obtain ⟨pres, hpres, hdm⟩ := hdm
    rw [Option.bind_eq_some] at hdm
    obtain ⟨ac, hac, hdm⟩ := hdm
    cases hdm
    subst ht
    exact ⟨pres, ac, hpres, hac,
      lookupT_tech_children _ _ _ _ _ _ _ _ _ _ _ _ _ _
        "derivedFrom" ("derivedFrom", some (pyBasename pres)) (by decide) rfl,
      lookupT_tech_children _ _ _ _ _ _ _ _ _ _ _ _ _ _
        "md5" ("md5", some (cs ac)) (by decide) rfl⟩

mutual

/-- After the pruning pass, the element count has dropped by exactly the
number of elements that were empty before the pass (helper for C4). -/
theorem prune_count_elem : ∀ x : XTree,
    countElems (pruneOnce x) + countEmpty x = countElems x
  | .node n t cs => by
    simpa only [pruneOnce, countElems, countEmpty] using prune_count_list cs

theorem prune_count_list : ∀ cs : List XTree,
    countElemsL (pruneList cs) + countEmptyL cs = countElemsL cs
  | [] => rfl
  | (XTree.node n t ch) :: cs => by
    have hc := prune_count_elem (XTree.node n t ch)
    have hcs := prune_count_list cs
    cases hnode : hasNode (XTree.node n t ch) with
    | true =>
      simp only [pruneList, hnode, if_pos, countElemsL, countEmptyL, if_neg]
      omega
    | false =>
      have hch : ch = [] := by
        simp only [hasNode, Bool.or_eq_false_iff] at hnode
        have h2 := hnode.2
        cases ch with
        | nil => rfl
        | cons a l => simp [List.isEmpty] at h2
      subst hch
      simp only [pruneList, hnode, Bool.false_eq_true, if_neg, countElemsL, countEmptyL,
        countElems, countEmpty, if_false]
      omega

end

/-- The nested-empties example: an AssetPart with no units inside an Assets
wrapper that itself holds nothing else. -/
def C4_example_tree : XTree :=
  .node "metadata" none [.node "Assets" none [.node "AssetPart" none []]]

/-- C4 counterexample: on a tree whose only leaf is empty and whose parent
becomes empty only once that leaf is removed, the single XPath pass removes
the leaf (AssetPart) but keeps the newly empty parent (Assets), so the
serialized tree still contains an element with no text and no children. -/
theorem C4_counterexample :
    pruneOnce C4_example_tree = .node "metadata" none [.node "Assets" none []]
  ∧ hasEmptyDescendant (pruneOnce C4_example_tree) = true := by
  exact ⟨rfl, rfl⟩

/-- C4 (amended): the pruning pass removes exactly the elements that had no
text node and no children when the XPath query ran (the surviving element
count is the original count minus the count of originally empty elements, so
elements with a child are all retained); the pass is not recursive, so an
element whose children are all removed survives as a new empty element, and a
second pass can strictly shrink the tree. -/
theorem C4_prune_single_pass :
    (∀ x : XTree, countElems (pruneOnce x) + countEmpty x = countElems x)
  ∧ countElems (pruneOnce (pruneOnce C4_example_tree)) + 1
      = countElems (pruneOnce C4_example_tree) := by
  exact ⟨prune_count_elem, rfl⟩

/-- The technical children surviving the final pruning pass are exactly those
whose text was assigned (helper lemma). -/
theorem techNames_eq (t : List (String × Option String)) :
    techNames t = (t.filter (fun e => e.2.isSome)).map (fun e => e.1) := by
  unfold techNames technical_tree childNames pruneOnce
  induction t with
  | nil => rfl
  | cons e es ih =>
    simp only [List.map_cons, pruneList, hasNode, List.isEmpty_nil, Bool.not_true,
      Bool.or_false, List.filter_cons]
    cases he : e.2.isSome with
    | true =>
      simp only [if_pos, List.map_cons, pruneOnce, pruneList]
      exact congrArg (fun l => e.1 :: l) ih
    | false =>
      simp only [Bool.false_eq_true, if_neg, not_false_iff]
      exact ih

/-- The tags of the built technical children follow the template order
(helper lemma). -/
theorem map_fst_filterMap_sublist {β : Type} (entry : String → Option (String × β))
    (names : List String) (hkey : ∀ m x, entry m = some x → x.1 = m) :
    ((names.filterMap entry).map (fun e => e.1)).Sublist names := by
  induction names with
  | nil => simp
  | cons m ms ih =>
    cases hem : entry m with
    | none =>
      rw [List.filterMap_cons_none hem]
      exact ih.cons m
    | some y =>
      rw [List.filterMap_cons_some hem, List.map_cons, hkey m y hem]
      exact ih.cons₂ m

/-- The surviving technical children of any build are a subsequence of the
template order (helper lemma). -/
theorem techNames_tech_children_sublist (names : List String)
    (path cd sz mime ext md5v dfv : String)
    (raster : Option (String × String × String × String × String))
    (spp comp app make model : Option JVal) :
    (techNames (tech_children names path cd sz mime ext md5v dfv raster
      spp comp app make model)).Sublist names := by
  rw [techNames_eq]
  unfold tech_children
  exact List.Sublist.trans (List.Sublist.map _ (List.filter_sublist _))
    (map_fst_filterMap_sublist _ names
      (tech_entry_key path cd sz mime ext md5v dfv raster spp comp app make model))

/-- A technical child whose text was never assigned is absent after pruning
(helper lemma). -/
theorem not_mem_techNames (names : List String)
    (path cd sz mime ext md5v dfv : String)
    (raster : Option (String × String × String × String × String))
    (spp comp app make model : Option JVal) (nm : String)
    (hval : tech_entry path cd sz mime ext md5v dfv raster spp comp app make model nm
      = some (nm, none)) :
    nm ∉ techNames (tech_children names path cd sz mime ext md5v dfv raster
      spp comp app make model) := by
  rw [techNames_eq]
  intro hmem
  rw [List.mem_map] at hmem
  obtain ⟨e, he, hfst⟩ := hmem
  rw [List.mem_filter] at he
  obtain ⟨he, hsome⟩ := he
  unfold tech_children at he
  rw [List.mem_filterMap] at he
  obtain ⟨m, -, hm⟩ := he
  have hkm := tech_entry_key path cd sz mime ext md5v dfv raster spp comp app make model m e hm
  rw [hkm] at hfst
  subst hfst
  rw [hval] at hm
  cases hm
  simp at hsome

/-- A concrete checksum oracle for witnesses. -/
def csW : String → String := fun _ => "0123456789abcdef0123456789abcdef"

/-- A concrete file-size oracle for witnesses. -/
def gsW : String → Nat := fun _ => 1048576

/-- A concrete exiftool output for a TIFF file (no Compression, CreatorTool,
Make or Model fields). -/
def exifW : Exif :=
  [("FileModifyDate", .jstr "2020:01:02 03:04:05-08:00"),
   ("MIMEType", .jstr "image/tiff"), ("FileTypeExtension", .jstr "tif"),
   ("BitsPerSample", .jint 8), ("ColorComponents", .jint 3),
   ("ImageWidth", .jint 100), ("ImageHeight", .jint 200),
   ("XResolution", .jint 400), ("YResolution", .jint 400)]

/-- A concrete exiftool output for a TIFF file that lacks ColorComponents. -/
def exifNoCCW : Exif :=
  [("FileModifyDate", .jstr "2020:01:02 03:04:05-08:00"),
   ("MIMEType", .jstr "image/tiff"), ("FileTypeExtension", .jstr "tif"),
   ("BitsPerSample", .jint 8),
   ("ImageWidth", .jint 100), ("ImageHeight", .jint 200),
   ("XResolution", .jint 400), ("YResolution", .jint 400)]

/-- A concrete exiftool output for a PDF file. -/
def exifPdfW : Exif :=
  [("FileModifyDate", .jstr "2020:01:02 03:04:05-08:00"),
   ("MIMEType", .jstr "application/pdf"), ("FileTypeExtension", .jstr "pdf")]

/-- A concrete package dictionary containing every generation key. -/
def packW : Dict :=
  [("Preservation", "obj/X_prsv.tif"), ("Preservation_01", "obj/X_01_prsv.tif"),
   ("Preservation_01_md5", "obj/X_01_prsv.tif.md5"), ("Access_01", "obj/X_01_access.jpg"),
   ("Access_01_md5", "obj/X_01_access.jpg.md5"), ("Access", "obj/X_access.jpg"),
   ("access_checksum", "obj/X_access.jpg.md5"), ("master_checksum", "obj/X_prsv.tif.md5"),
   ("Print", "obj/Y.pdf"), ("print_checksum", "obj/Y.pdf.md5")]

/-- Modelled from the claim: the expected relationship labels, unit by unit.
Each unit contributes one label per generation key it holds; a unit with a
Print key contributes "object" labels and does not consume a page number; any
other unit contributes "Page k" labels where k counts the non-Print units
processed so far, starting at 1. -/
def expected_page_labels (k : Nat) : List Dict → List String
  | [] => []
  | p :: ps =>
    let n := ((keysOf p).filter (fun q => isGenKey q)).length
    if (keysOf p).contains "Print" then
      List.replicate n "object" ++ expected_page_labels k ps
    else
      List.replicate n ("Page " ++ toString k) ++ expected_page_labels (k + 1) ps

/-- The relationship attribute of a built instantiation (helper lemma). -/
theorem build_instantiation_relationship (cs : String → String) (gs : String → Nat)
    (eo : String → Exif) (oid : String) (p : Dict) (k : String) (c : Nat)
    (b : Instantiation) (h : build_instantiation cs gs eo oid p k c = some b) :
    b.relationship = (if normGen k == "Print" then "object" else "Page " ++ toString c) := by
  unfold build_instantiation at h
  obtain ⟨t, -, rfl⟩ := Option.map_eq_some'.mp h
  rfl

/-- The three possible key lists of an analyse_folder unit (helper
definition). -/
def shapeKeys (p : Dict) : Prop :=
  keysOf p = ["Preservation", "Access", "access_checksum", "master_checksum"]
  ∨ keysOf p = ["Preservation", "Preservation_01", "Preservation_01_md5", "Access_01",
      "Access_01_md5", "Access", "access_checksum", "master_checksum"]
  ∨ keysOf p = ["Print", "print_checksum"]

/-- Every analyse_folder unit satisfies shapeKeys (helper lemma). -/
theorem analyse_folder_shapeKeys (isfile : String → Bool) (folder_name : String)
    (contents : List String) :
    ∀ p ∈ analyse_folder isfile folder_name contents, shapeKeys p := by
  intro p hp
  rcases analyse_folder_shapes isfile folder_name contents p hp with
    ⟨pres, acc, rfl⟩ | ⟨pres, p01, a01, acc, rfl⟩ | ⟨pr, rfl⟩
  · exact Or.inl rfl
  · exact Or.inr (Or.inl rfl)
  · exact Or.inr (Or.inr rfl)

/-- unit_blocks on the base TIFF key list (helper lemma). -/
theorem unit_blocks_shape1 (cs : String → String) (gs : String → Nat)
    (eo : String → Exif) (oid : String) (c : Nat) (p : Dict) :
    unit_blocks cs gs eo oid c p
        ["master_checksum", "access_checksum", "Preservation", "Access"]
      = match build_instantiation cs gs eo oid p "Preservation" c with
        | none => none
        | some b1 =>
          match build_instantiation cs gs eo oid p "Access" c with
          | none => none
          | some b2 => some [b1, b2] := by
  have h1 : unit_blocks cs gs eo oid c p
      ["master_checksum", "access_checksum", "Preservation", "Access"]
    = match build_instantiation cs gs eo oid p "Preservation" c with
      | none => none
      | some b => (unit_blocks cs gs eo oid c p ["Access"]).map (fun bs => b :: bs) := rfl
  have h2 : unit_blocks cs gs eo oid c p ["Access"]
    = match build_instantiation cs gs eo oid p "Access" c with
      | none => none
      | some b => (unit_blocks cs gs eo oid c p []).map (fun bs => b :: bs) := rfl
  simp only [h1, h2]
  cases build_instantiation cs gs eo oid p "Preservation" c with
  | none => rfl
  | some b1 =>
    cases build_instantiation cs gs eo oid p "Access" c with
    | none => rfl
    | some b2 => rfl

/-- unit_blocks on the variant TIFF key list (helper lemma). -/
theorem unit_blocks_shape2 (cs : String → String) (gs : String → Nat)
    (eo : String → Exif) (oid : String) (c : Nat) (p : Dict) :
    unit_blocks cs gs eo oid c p
        ["master_checksum", "access_checksum", "Preservation_01_md5", "Preservation_01",
         "Preservation", "Access_01_md5", "Access_01", "Access"]
      = match build_instantiation cs gs eo oid p "Preservation_01" c with
        | none => none
        | some b1 =>
          match build_instantiation cs gs eo oid p "Preservation" c with
          | none => none
          | some b2 =>
            match build_instantiation cs gs eo oid p "Access_01" c with
            | none => none
            | some b3 =>
              match build_instantiation cs gs eo oid p "Access" c with
              | none => none
              | some b4 => some [b1, b2, b3, b4] := by
  have h1 : unit_blocks cs gs eo oid c p
      ["master_checksum", "access_checksum", "Preservation_01_md5", "Preservation_01",
       "Preservation", "Access_01_md5", "Access_01", "Access"]
    = match build_instantiation cs gs eo oid p "Preservation_01" c with
      | none => none
      | some b =>
        (unit_blocks cs gs eo oid c p
          ["Preservation", "Access_01_md5", "Access_01", "Access"]).map
          (fun bs => b :: bs) := rfl
  have h2 : unit_blocks cs gs eo oid c p
      ["Preservation", "Access_01_md5", "Access_01", "Access"]
    = match build_instantiation cs gs eo oid p "Preservation" c with
      | none => none
      | some b =>
        (unit_blocks cs gs eo oid c p ["Access_01", "Access"]).map
          (fun bs => b :: bs) := rfl
  have h3 : unit_blocks cs gs eo oid c p ["Access_01", "Access"]
    = match build_instantiation cs gs eo oid p "Access_01" c with
      | none => none
      | some b => (unit_blocks cs gs eo oid c p ["Access"]).map (fun bs => b :: bs) := rfl
  have h4 : unit_blocks cs gs eo oid c p ["Access"]
    = match build_instantiation cs gs eo oid p "Access" c with
      | none => none
      | some b => (unit_blocks cs gs eo oid c p []).map (fun bs => b :: bs) := rfl
  simp only [h1, h2, h3, h4]
  cases build_instantiation cs gs eo oid p "Preservation_01" c with
  | none => rfl
  | some b1 =>
    cases build_instantiation cs gs eo oid p "Preservation" c with
    | none => rfl
    | some b2 =>
      cases build_instantiation cs gs eo oid p "Access_01" c with
      | none => rfl
      | some b3 =>
        cases build_instantiation cs gs eo oid p "Access" c with
        | none => rfl
        | some b4 => rfl

/-- unit_blocks on the Print key list (helper lemma). -/
theorem unit_blocks_shape3 (cs : String → String) (gs : String → Nat)
    (eo : String → Exif) (oid : String) (c : Nat) (p : Dict) :
    unit_blocks cs gs eo oid c p ["print_checksum", "Print"]
      = match build_instantiation cs gs eo oid p "Print" c with
        | none => none
        | some b1 => some [b1] := by
  have h1 : unit_blocks cs gs eo oid c p ["print_checksum", "Print"]
    = match build_instantiation cs gs eo oid p "Print" c with
      | none => none
      | some b => (unit_blocks cs gs eo oid c p []).map (fun bs => b :: bs) := rfl
  simp only [h1]
  cases build_instantiation cs gs eo oid p "Print" c with
  | none => rfl
  | some b1 => rfl

/-- tm_go on a base TIFF unit (helper lemma). -/
theorem tm_go_cons_shape1 (cs : String → String) (gs : String → Nat)
    (eo : String → Exif) (oid : String) (c : Nat) (prev : Option String)
    (p : Dict) (ps : List Dict)
    (hk : keysOf p = ["Preservation", "Access", "access_checksum", "master_checksum"]) :
    tm_go cs gs eo oid c prev (p :: ps)
      = match unit_blocks cs gs eo oid c p
            ["master_checksum", "access_checksum", "Preservation", "Access"] with
        | none => none
        | some bs =>
          match tm_go cs gs eo oid (c + 1) (some "Access") ps with
          | none => none
          | some rest => some (bs ++ rest) := by
  have hsr : sortedRev (keysOf p)
      = ["master_checksum", "access_checksum", "Preservation", "Access"] := by
    rw [hk]; decide
  simp only [tm_go, hsr]
  cases unit_blocks cs gs eo oid c p
      ["master_checksum", "access_checksum", "Preservation", "Access"] with
  | none => rfl
  | some bs => rfl

/-- tm_go on a variant TIFF unit (helper lemma). -/
theorem tm_go_cons_shape2 (cs : String → String) (gs : String → Nat)
    (eo : String → Exif) (oid : String) (c : Nat) (prev : Option String)
    (p : Dict) (ps : List Dict)
    (hk : keysOf p = ["Preservation", "Preservation_01", "Preservation_01_md5",
      "Access_01", "Access_01_md5", "Access", "access_checksum", "master_checksum"]) :
    tm_go cs gs eo oid c prev (p :: ps)
      = match unit_blocks cs gs eo oid c p
            ["master_checksum", "access_checksum", "Preservation_01_md5", "Preservation_01",
             "Preservation", "Access_01_md5", "Access_01", "Access"] with
        | none => none
        | some bs =>
          match tm_go cs gs eo oid (c + 1) (some "Access") ps with
          | none => none
          | some rest => some (bs ++ rest) := by
  have hsr : sortedRev (keysOf p)
      = ["master_checksum", "access_checksum", "Preservation_01_md5", "Preservation_01",
         "Preservation", "Access_01_md5", "Access_01", "Access"] := by
    rw [hk]; decide
  simp only [tm_go, hsr]
  cases unit_blocks cs gs eo oid c p
      ["master_checksum", "access_checksum", "Preservation_01_md5", "Preservation_01",
       "Preservation", "Access_01_md5", "Access_01", "Access"] with
  | none => rfl
  | some bs => rfl

/-- tm_go on a Print unit: the counter is not incremented (helper lemma). -/
theorem tm_go_cons_shape3 (cs : String → String) (gs : String → Nat)
    (eo : String → Exif) (oid : String) (c : Nat) (prev : Option String)
    (p : Dict) (ps : List Dict)
    (hk : keysOf p = ["Print", "print_checksum"]) :
    tm_go cs gs eo oid c prev (p :: ps)
      = match unit_blocks cs gs eo oid c p ["print_checksum", "Print"] with
        | none => none
        | some bs =>
          match tm_go cs gs eo oid c (some "Print") ps with
          | none => none
          | some rest => some (bs ++ rest) := by
  have hsr : sortedRev (keysOf p) = ["print_checksum", "Print"] := by
    rw [hk]; decide
  simp only [tm_go, hsr]
  cases unit_blocks cs gs eo oid c p ["print_checksum", "Print"] with
  | none => rfl
  | some bs => rfl

/-- The relationship labels produced by tm_go over well-shaped units follow
the claimed page numbering (helper lemma). -/
theorem tm_go_labels (cs : String → String) (gs : String → Nat)
    (eo : String → Exif) (oid : String) (pkgs : List Dict) :
    ∀ (c : Nat) (prev : Option String) (insts : List Instantiation),
      (∀ p ∈ pkgs, shapeKeys p) →
      tm_go cs gs eo oid c prev pkgs = some insts →
      insts.map (fun i => i.relationship) = expected_page_labels c pkgs := by
  induction pkgs with
  | nil =>
    intro c prev insts hsh h
    cases h
    rfl
  | cons p ps ih =>
    intro c prev insts hsh h
    have hps : ∀ q ∈ ps, shapeKeys q := fun q hq => hsh q (List.mem_cons_of_mem p hq)
    rcases hsh p (List.mem_cons_self p ps) with hk | hk | hk
    · rw [tm_go_cons_shape1 cs gs eo oid c prev p ps hk, unit_blocks_shape1] at h
      have hexp : expected_page_labels c (p :: ps)
          = List.replicate 2 ("Page " ++ toString c) ++ expected_page_labels (c + 1) ps := by
        simp only [expected_page_labels]
        rw [hk]
        rfl
      cases hb1 : build_instantiation cs gs eo oid p "Preservation" c with
      | none => rw [hb1] at h; exact Option.noConfusion h
      | some b1 =>
        rw [hb1] at h
        cases hb2 : build_instantiation cs gs eo oid p "Access" c with
        | none => rw [hb2] at h; exact Option.noConfusion h
        | some b2 =>
          rw [hb2] at h
          cases hrest : tm_go cs gs eo oid (c + 1) (some "Access") ps with
          | none => rw [hrest] at h; exact Option.noConfusion h
          | some rest =>
            rw [hrest] at h
            cases h
            have e1 := build_instantiation_relationship cs gs eo oid p "Preservation" c b1 hb1
            have e2 := build_instantiation_relationship cs gs eo oid p "Access" c b2 hb2
            have erest := ih (c + 1) (some "Access") rest hps hrest
            rw [hexp]
            simp only [List.cons_append, List.nil_append, List.map_cons]
            rw [e1, e2, erest]
            rfl
    · rw [tm_go_cons_shape2 cs gs eo oid c prev p ps hk, unit_blocks_shape2] at h
      have hexp : expected_page_labels c (p :: ps)
          = List.replicate 4 ("Page " ++ toString c) ++ expected_page_labels (c + 1) ps := by
        simp only [expected_page_labels]
        rw [hk]
        rfl
      cases hb1 : build_instantiation cs gs eo oid p "Preservation_01" c with
      | none => rw [hb1] at h; exact Option.noConfusion h
      | some b1 =>
        rw [hb1] at h
        cases hb2 : build_instantiation cs gs eo oid p "Preservation" c with
        | none => rw [hb2] at h; exact Option.noConfusion h
        | some b2 =>
          rw [hb2] at h
          cases hb3 : build_instantiation cs gs eo oid p "Access_01" c with
          | none => rw [hb3] at h; exact Option.noConfusion h
          | some b3 =>
            rw [hb3] at h
            cases hb4 : build_instantiation cs gs eo oid p "Access" c with
            | none => rw [hb4] at h; exact Option.noConfusion h
            | some b4 =>
              rw [hb4] at h
              cases hrest : tm_go cs gs eo oid (c + 1) (some "Access") ps with
              | none => rw [hrest] at h; exact Option.noConfusion h
              | some rest =>
                rw [hrest] at h
                cases h
                have e1 := build_instantiation_relationship cs gs eo oid p
                  "Preservation_01" c b1 hb1
                have e2 := build_instantiation_relationship cs gs eo oid p
                  "Preservation" c b2 hb2
                have e3 := build_instantiation_relationship cs gs eo oid p
                  "Access_01" c b3 hb3
                have e4 := build_instantiation_relationship cs gs eo oid p
                  "Access" c b4 hb4
                have erest := ih (c + 1) (some "Access") rest hps hrest
                rw [hexp]
                simp only [List.cons_append, List.nil_append, List.map_cons]
                rw [e1, e2, e3, e4, erest]
                rfl
    · rw [tm_go_cons_shape3 cs gs eo oid c prev p ps hk, unit_blocks_shape3] at h
      have hexp : expected_page_labels c (p :: ps)
          = List.replicate 1 "object" ++ expected_page_labels c ps := by
        simp only [expected_page_labels]
        rw [hk]
        rfl
      cases hb1 : build_instantiation cs gs eo oid p "Print" c with
      | none => rw [hb1] at h; exact Option.noConfusion h
      | some b1 =>
        rw [hb1] at h
        cases hrest : tm_go cs gs eo oid c (some "Print") ps with
        | none => rw [hrest] at h; exact Option.noConfusion h
        | some rest =>
          rw [hrest] at h
          cases h
          have e1 := build_instantiation_relationship cs gs eo oid p "Print" c b1 hb1
          have erest := ih c (some "Print") rest hps hrest
          rw [hexp]
          simp only [List.cons_append, List.nil_append, List.map_cons]
          rw [e1, erest]
          rfl

/-- C6: over the units of a directory analysis, the instantiation counter
starts at 1 and advances once per unit after its generations are processed,
except for Print units; every instantiation of the k-th non-Print unit is
labelled "Page k" (so Preservation and Access instantiations of a unit share
their page number), and Print instantiations are labelled "object". -/
theorem C6_page_counter (cs : String → String) (gs : String → Nat)
    (eo : String → Exif) (oid : String) (isfile : String → Bool)
    (folder_name : String) (contents : List String) (insts : List Instantiation)
    (h : techncial_metadata cs gs eo oid (analyse_folder isfile folder_name contents)
      = some insts) :
    insts.map (fun i => i.relationship)
      = expected_page_labels 1 (analyse_folder isfile folder_name contents) :=
  tm_go_labels cs gs eo oid (analyse_folder isfile folder_name contents) 1 none insts
    (analyse_folder_shapeKeys isfile folder_name contents) h

/-- Witness for C6_page_counter: two TIFF page units around a PDF print unit
give labels Page 1, Page 1, object, Page 2, Page 2. -/
theorem C6_page_counter_witness :
    ((techncial_metadata csW gsW (fun _ => exifW) "obj"
        (analyse_folder (fun _ => false) "obj"
          ["X_prsv.tif", "X_prsv.tif.md5", "X_access.jpg", "X_access.jpg.md5",
           "Y.pdf", "Y.pdf.md5", "Z_prsv.tif", "Z_prsv.tif.md5", "Z_access.jpg",
           "Z_access.jpg.md5"])).getD []).map (fun i => i.relationship)
      = expected_page_labels 1 (analyse_folder (fun _ => false) "obj"
          ["X_prsv.tif", "X_prsv.tif.md5", "X_access.jpg", "X_access.jpg.md5",
           "Y.pdf", "Y.pdf.md5", "Z_prsv.tif", "Z_prsv.tif.md5", "Z_access.jpg",
           "Z_access.jpg.md5"]) :=
  C6_page_counter csW gsW (fun _ => exifW) "obj" (fun _ => false) "obj"
    ["X_prsv.tif", "X_prsv.tif.md5", "X_access.jpg", "X_access.jpg.md5",
     "Y.pdf", "Y.pdf.md5", "Z_prsv.tif", "Z_prsv.tif.md5", "Z_access.jpg",
     "Z_access.jpg.md5"] _ rfl

/-- Witness for C2_derivation_and_checksums at a concrete package. -/
theorem C2_derivation_and_checksums_witness :
    (∃ mc, dget packW "master_checksum" = some mc
      ∧ lookupT ((build_technical csW gsW (fun _ => exifW) "obj" packW "Preservation").getD [])
          "derivedFrom" = some (some "obj")
      ∧ lookupT ((build_technical csW gsW (fun _ => exifW) "obj" packW "Preservation").getD [])
          "md5" = some (some (csW mc)))
  ∧ (∃ pres ac, dget packW "Preservation" = some pres
      ∧ dget packW "access_checksum" = some ac
      ∧ lookupT ((build_technical csW gsW (fun _ => exifW) "obj" packW "Access").getD [])
          "derivedFrom" = some (some (pyBasename pres))
      ∧ lookupT ((build_technical csW gsW (fun _ => exifW) "obj" packW "Access").getD [])
          "md5" = some (some (csW ac)))
  ∧ (∃ pc, dget packW "print_checksum" = some pc
      ∧ lookupT ((build_technical csW gsW (fun _ => exifW) "obj" packW "Print").getD [])
          "derivedFrom" = some (some "Bound from multiple tiff files")
      ∧ lookupT ((build_technical csW gsW (fun _ => exifW) "obj" packW "Print").getD [])
          "md5" = some (some (csW pc)))
  ∧ (∃ mc, dget packW "Preservation_01_md5" = some mc
      ∧ lookupT ((build_technical csW gsW (fun _ => exifW) "obj" packW "Preservation_01").getD [])
          "derivedFrom" = some (some "obj")
      ∧ lookupT ((build_technical csW gsW (fun _ => exifW) "obj" packW "Preservation_01").getD [])
          "md5" = some (some (csW mc)))
  ∧ (∃ pres ac, dget packW "Preservation" = some pres
      ∧ dget packW "Access_01_md5" = some ac
      ∧ lookupT ((build_technical csW gsW (fun _ => exifW) "obj" packW "Access_01").getD [])
          "derivedFrom" = some (some (pyBasename pres))
      ∧ lookupT ((build_technical csW gsW (fun _ => exifW) "obj" packW "Access_01").getD [])
          "md5" = some (some (csW ac))) :=
  ⟨(C2_derivation_and_checksums csW gsW (fun _ => exifW) "obj" packW _).1 rfl,
   (C2_derivation_and_checksums csW gsW (fun _ => exifW) "obj" packW _).2.1 rfl,
   (C2_derivation_and_checksums csW gsW (fun _ => exifW) "obj" packW _).2.2.1 rfl,
   (C2_derivation_and_checksums csW gsW (fun _ => exifW) "obj" packW _).2.2.2.1 rfl,
   (C2_derivation_and_checksums csW gsW (fun _ => exifW) "obj" packW _).2.2.2.2 rfl⟩

/-- C9 counterexample: with a non-pdf extension and a single-digit
BitsPerSample, a missing ColorComponents is not an omitted optional field: the
bit-depth multiplication path hits an uncaught KeyError and the whole run
aborts; with ColorComponents present the build succeeds. -/
theorem C9_missing_colorcomponents_aborts :
    build_technical csW gsW (fun _ => exifNoCCW) "obj" packW "Preservation" = none
  ∧ (build_technical csW gsW (fun _ => exifW) "obj" packW "Preservation").isSome = true :=
  ⟨rfl, rfl⟩

/-- C9 (amended): on every successfully built instantiation, each of the five
optional fields is independent of the others: if exiftool reported the source
field the output element carries its str() value, and if not the element is
removed entirely; however a missing ColorComponents can also abort the whole
run through the bit-depth path before this logic runs (see the
counterexample), so absence of samples-per-pixel handling without error only
holds when the build completed. -/
theorem C9_optional_fields (cs : String → String) (gs : String → Nat)
    (eo : String → Exif) (oid : String) (p : Dict) (s path : String)
    (t : List (String × Option String))
    (hpath : dget p s = some path)
    (h : build_technical cs gs eo oid p s = some t) :
    (∀ v, eget (eo path) "ColorComponents" = some v →
        lookupT t "samplesPerPixel" = some (some v.toStr))
  ∧ (eget (eo path) "ColorComponents" = none → lookupT t "samplesPerPixel" = none)
  ∧ (∀ v, eget (eo path) "Compression" = some v →
        lookupT t "compression" = some (some v.toStr))
  ∧ (eget (eo path) "Compression" = none → lookupT t "compression" = none)
  ∧ (∀ v, eget (eo path) "CreatorTool" = some v →
        lookupT t "creatingApplicationAndVersion" = some (some v.toStr))
  ∧ (eget (eo path) "CreatorTool" = none →
        lookupT t "creatingApplicationAndVersion" = none)
  ∧ (∀ v, eget (eo path) "Make" = some v →
        lookupT t "digitizerManufacturer" = some (some v.toStr))
  ∧ (eget (eo path) "Make" = none → lookupT t "digitizerManufacturer" = none)
  ∧ (∀ v, eget (eo path) "Model" = some v →
        lookupT t "digitizerModel" = some (some v.toStr))
  ∧ (eget (eo path) "Model" = none → lookupT t "digitizerModel" = none) := by
  obtain ⟨path0, fmdJ, fmd, mimeJ, mime, extJ, ext, raster, dm, hpath0, -, -, -, -, -, -,
    -, -, ht⟩ := build_technical_eq_some cs gs eo oid p s t h
  rw [hpath0] at hpath
  injection hpath with hpath
  subst hpath
  subst ht
  refine ⟨?_, ?_, ?_, ?_, ?_, ?_, ?_, ?_, ?_, ?_⟩
  · intro v hv
    rw [hv]
    rcases create_instantiations_order_cases (normGen s) with ho | ho <;> rw [ho] <;>
      exact lookupT_tech_children _ _ _ _ _ _ _ _ _ _ _ _ _ _
        "samplesPerPixel" ("samplesPerPixel", some v.toStr) (by decide) rfl
  · intro hv
    rw [hv]
    exact lookupT_tech_children_none _ _ _ _ _ _ _ _ _ _ _ _ _ _ "samplesPerPixel" rfl
  · intro v hv
    rw [hv]
    rcases create_instantiations_order_cases (normGen s) with ho | ho <;> rw [ho] <;>
      exact lookupT_tech_children _ _ _ _ _ _ _ _ _ _ _ _ _ _
        "compression" ("compression", some v.toStr) (by decide) rfl
  · intro hv
    rw [hv]
    exact lookupT_tech_children_none _ _ _ _ _ _ _ _ _ _ _ _ _ _ "compression" rfl
  · intro v hv
    rw [hv]
    rcases create_instantiations_order_cases (normGen s) with ho | ho <;> rw [ho] <;>
      exact lookupT_tech_children _ _ _ _ _ _ _ _ _ _ _ _ _ _
        "creatingApplicationAndVersion" ("creatingApplicationAndVersion", some v.toStr)
        (by decide) rfl
  · intro hv
    rw [hv]
    exact lookupT_tech_children_none _ _ _ _ _ _ _ _ _ _ _ _ _ _
      "creatingApplicationAndVersion" rfl
  · intro v hv
    rw [hv]
    rcases create_instantiations_order_cases (normGen s) with ho | ho <;> rw [ho] <;>
      exact lookupT_tech_children _ _ _ _ _ _ _ _ _ _ _ _ _ _
        "digitizerManufacturer" ("digitizerManufacturer", some v.toStr) (by decide) rfl
  · intro hv
    rw [hv]
    exact lookupT_tech_children_none _ _ _ _ _ _ _ _ _ _ _ _ _ _
      "digitizerManufacturer" rfl
  · intro v hv
    rw [hv]
    rcases create_instantiations_order_cases (normGen s) with ho | ho <;> rw [ho] <;>
      exact lookupT_tech_children _ _ _ _ _ _ _ _ _ _ _ _ _ _
        "digitizerModel" ("digitizerModel", some v.toStr) (by decide) rfl
  · intro hv
    rw [hv]
    exact lookupT_tech_children_none _ _ _ _ _ _ _ _ _ _ _ _ _ _ "digitizerModel" rfl

/-- Witness for C9_optional_fields at a concrete package and exiftool
output. -/
theorem C9_optional_fields_witness :
    (∀ v, eget exifW "ColorComponents" = some v →
        lookupT ((build_technical csW gsW (fun _ => exifW) "obj" packW "Preservation").getD [])
          "samplesPerPixel" = some (some v.toStr))
  ∧ (eget exifW "ColorComponents" = none →
        lookupT ((build_technical csW gsW (fun _ => exifW) "obj" packW "Preservation").getD [])
          "samplesPerPixel" = none)
  ∧ (∀ v, eget exifW "Compression" = some v →
        lookupT ((build_technical csW gsW (fun _ => exifW) "obj" packW "Preservation").getD [])
          "compression" = some (some v.toStr))
  ∧ (eget exifW "Compression" = none →
        lookupT ((build_technical csW gsW (fun _ => exifW) "obj" packW "Preservation").getD [])
          "compression" = none)
  ∧ (∀ v, eget exifW "CreatorTool" = some v →
        lookupT ((build_technical csW gsW (fun _ => exifW) "obj" packW "Preservation").getD [])
          "creatingApplicationAndVersion" = some (some v.toStr))
  ∧ (eget exifW "CreatorTool" = none →
        lookupT ((build_technical csW gsW (fun _ => exifW) "obj" packW "Preservation").getD [])
          "creatingApplicationAndVersion" = none)
  ∧ (∀ v, eget exifW "Make" = some v →
        lookupT ((build_technical csW gsW (fun _ => exifW) "obj" packW "Preservation").getD [])
          "digitizerManufacturer" = some (some v.toStr))
  ∧ (eget exifW "Make" = none →
        lookupT ((build_technical csW gsW (fun _ => exifW) "obj" packW "Preservation").getD [])
          "digitizerManufacturer" = none)
  ∧ (∀ v, eget exifW "Model" = some v →
        lookupT ((build_technical csW gsW (fun _ => exifW) "obj" packW "Preservation").getD [])
          "digitizerModel" = some (some v.toStr))
  ∧ (eget exifW "Model" = none →
        lookupT ((build_technical csW gsW (fun _ => exifW) "obj" packW "Preservation").getD [])
          "digitizerModel" = none) :=
  C9_optional_fields csW gsW (fun _ => exifW) "obj" packW "Preservation"
    "obj/X_prsv.tif" _ rfl rfl

/-- C3 counterexample: a Print instantiation is created from the full
18-element template (bitDepth is declared in it), and on a concrete PDF run
the surviving technical children are NOT in the declared order: after
digitalFileIdentifier the remaining elements appear reversed, so the result is
not a sublist of the declared order. -/
theorem C3_print_order_counterexample :
    "bitDepth" ∈ create_instantiations_order "Print"
  ∧ techNames ((build_technical csW gsW (fun _ => exifPdfW) "obj" packW "Print").getD [])
      = ["digitalFileIdentifier", "derivedFrom", "md5", "size", "standardAndFileWrapper",
         "fileExtension", "creationDate"]
  ∧ decide ((techNames ((build_technical csW gsW (fun _ => exifPdfW) "obj" packW
        "Print").getD [])).Sublist declaredNames) = false := by
  refine ⟨by decide, by decide, by decide⟩

/-- C3 (amended): non-Print instantiations list their surviving technical
children as a subsequence of the declared order; a Print instantiation is
built from the same full 18-element template but with the insertion index
stuck at 1, so its tree order is digitalFileIdentifier followed by the other
17 declared names reversed; since exiftool reports extension pdf for a Print
file, its raster elements are never populated and disappear in the final
pruning pass. -/
theorem C3_order_and_print_template :
    (∀ (cs : String → String) (gs : String → Nat) (eo : String → Exif)
        (oid : String) (p : Dict) (s : String) (t : List (String × Option String)),
      (s = "Preservation" ∨ s = "Access" ∨ s = "Preservation_01" ∨ s = "Access_01") →
      build_technical cs gs eo oid p s = some t →
      (techNames t).Sublist declaredNames)
  ∧ create_instantiations_order "Print"
      = "digitalFileIdentifier" :: (declaredNames.drop 1).reverse
  ∧ (∀ (cs : String → String) (gs : String → Nat) (eo : String → Exif)
        (oid : String) (p : Dict) (e path : String) (t : List (String × Option String)),
      dget p "Print" = some path →
      eget (eo path) "FileTypeExtension" = some (.jstr e) →
      pyLower e = "pdf" →
      build_technical cs gs eo oid p "Print" = some t →
      ∀ nm ∈ ["bitDepth", "imageWidth", "imageLength", "xResolution", "yResolution"],
        nm ∉ techNames t) := by
  refine ⟨?_, by decide, ?_⟩
  · intro cs gs eo oid p s t hs h
    obtain ⟨path, fmdJ, fmd, mimeJ, mime, extJ, ext, raster, dm, -, -, -, -, -, -, -,
      -, -, ht⟩ := build_technical_eq_some cs gs eo oid p s t h
    subst ht
    have horder : create_instantiations_order (normGen s) = declaredNames := by
      rcases hs with rfl | rfl | rfl | rfl <;> decide
    rw [horder]
    exact techNames_tech_children_sublist declaredNames _ _ _ _ _ _ _ _ _ _ _ _ _
  · intro cs gs eo oid p e path t hpath hextJ hlow h nm hnm
    obtain ⟨path0, fmdJ, fmd, mimeJ, mime, extJ, ext, raster, dm, hpath0, -, -, -, -,
      hextJ0, hext0, hraster, -, ht⟩ :=
      build_technical_eq_some cs gs eo oid p "Print" t h
    rw [hpath0] at hpath
    injection hpath with hpath
    subst hpath
    rw [hextJ] at hextJ0
    injection hextJ0 with hextJ0
    subst hextJ0
    have hext1 : ext = e := by
      injection hext0 with hext0
      exact hext0.symm
    subst hext1
    have hr : raster = none := by
      unfold raster_fields at hraster
      rw [hlow] at hraster
      simp only [beq_self_eq_true, Bool.not_true, Bool.false_eq_true, if_neg,
        not_false_iff, Option.pure_def, Option.some.injEq] at hraster
      exact hraster.symm
    subst hr
    subst ht
    fin_cases hnm <;>
      exact not_mem_techNames _ _ _ _ _ _ _ _ _ _ _ _ _ _ _ rfl

/-- Witness for C3_order_and_print_template at concrete runs. -/
theorem C3_order_and_print_template_witness :
    (techNames ((build_technical csW gsW (fun _ => exifW) "obj" packW
        "Preservation").getD [])).Sublist declaredNames
  ∧ ("bitDepth" ∉ techNames ((build_technical csW gsW (fun _ => exifPdfW) "obj" packW
        "Print").getD [])) :=
  ⟨C3_order_and_print_template.1 csW gsW (fun _ => exifW) "obj" packW "Preservation" _
      (Or.inl rfl) rfl,
   C3_order_and_print_template.2.2 csW gsW (fun _ => exifPdfW) "obj" packW "pdf"
      "obj/Y.pdf" _ rfl rfl rfl rfl "bitDepth" (by decide)⟩

/-- Witness for C4_prune_single_pass at the concrete nested-empties tree. -/
theorem C4_prune_single_pass_witness :
    countElems (pruneOnce C4_example_tree) + countEmpty C4_example_tree
      = countElems C4_example_tree :=
  C4_prune_single_pass.1 C4_example_tree

/-- Witness for C8_size_truncated_kibibytes at 5243 bytes. -/
theorem C8_size_truncated_kibibytes_witness :
    size_code_hundredths 5243 ≤ size_claim_hundredths 5243
  ∧ size_claim_hundredths 5243 ≤ size_code_hundredths 5243 + 1 :=
  C8_size_truncated_kibibytes 5243

/-- C1 counterexample: BitsPerSample 16 is a single numeric value, so the
claim demands 16 times ColorComponents = 48, but str(16) has length 2, so the
code takes the summation branch and writes 16. -/
theorem C1_bitdepth_counterexample :
    bit_depth_text [("BitsPerSample", .jint 16), ("ColorComponents", .jint 3)] = some "16"
  ∧ toString ((16 : Int) * 3) = "48" := by
  decide

/-- C1 (amended): bit depth is BitsPerSample times ColorComponents only when
the str() rendering of BitsPerSample is a single character (a single-digit
value); any longer rendering is split on whitespace and summed, so a single
multi-digit value yields itself; in particular 8 with 3 components gives 24
and "8 8 8" gives 24. -/
theorem C1_bitdepth_amended (ex exm exs : Exif) (b cc : Int)
    (hb0 : 0 ≤ b) (hb9 : b ≤ 9)
    (h1 : eget ex "BitsPerSample" = some (.jint b))
    (h2 : eget ex "ColorComponents" = some (.jint cc))
    (h3 : eget exm "BitsPerSample" = some (.jint 16))
    (h4 : eget exs "BitsPerSample" = some (.jstr "8 8 8")) :
    bit_depth_text ex = some (toString (b * cc))
  ∧ bit_depth_text exm = some "16"
  ∧ bit_depth_text exs = some "24" := by
  refine ⟨?_, ?_, ?_⟩
  · interval_cases b <;>
      (simp only [bit_depth_text, h1, h2]
       rfl)
  · unfold bit_depth_text
    rw [h3]
    rfl
  · unfold bit_depth_text
    rw [h4]
    rfl

/-- Witness for C1_bitdepth_amended at concrete exiftool outputs. -/
theorem C1_bitdepth_amended_witness :
    bit_depth_text [("BitsPerSample", .jint 8), ("ColorComponents", .jint 3)] = some "24"
  ∧ bit_depth_text [("BitsPerSample", .jint 16), ("ColorComponents", .jint 3)] = some "16"
  ∧ bit_depth_text [("BitsPerSample", .jstr "8 8 8"), ("ColorComponents", .jint 3)]
      = some "24" :=
  C1_bitdepth_amended
    [("BitsPerSample", .jint 8), ("ColorComponents", .jint 3)]
    [("BitsPerSample", .jint 16), ("ColorComponents", .jint 3)]
    [("BitsPerSample", .jstr "8 8 8"), ("ColorComponents", .jint 3)]
    8 3 (by decide) (by decide) rfl rfl rfl rfl

end Crp
